import Mathlib

/-!
# Bridge unit `net/smtp` of package `stdlib` (go1_14_net_smtp.go)

A shallow embedding of the generated registration unit for `net/smtp`:

* the registration routine `init`, which stores a nine-entry symbol map under
  the key `"net/smtp"` of the package-level table `Symbols`;
* the interface wrapper `_net_smtp_Auth`, a struct of two function-valued
  fields with the forwarding methods `Next` and `Start`.

Go maps are embedded as association lists read through `GoMap.index`, Go
function values as optional state-passing functions (`none` is the nil
function value), and a Go call as an `Outcome` (normal return or panic)
paired with the state after the call.
-/

namespace stdlib

/-! ## Go values used by the unit -/

/-- Kinds of `reflect.Value` that occur in this unit. -/
inductive Kind
  | Invalid
  | Func
  | Ptr
  deriving DecidableEq, Repr

/-- The `reflect.Value` carriers built in `init`, plus the zero `reflect.Value`.
`funcOf pkg name` is `reflect.ValueOf(pkg.name)` for a package-level function;
`nilPtrTo pkg name` is `reflect.ValueOf((*pkg.name)(nil))`, a typed nil pointer
describing the type `pkg.name`. -/
inductive Value
  | zero
  | funcOf (pkg name : String)
  | nilPtrTo (pkg name : String)
  deriving DecidableEq, Repr

/-- The method `reflect.Value.Kind`. -/
def Value.Kind : Value → Kind
  | .zero => .Invalid
  | .funcOf _ _ => .Func
  | .nilPtrTo _ _ => .Ptr

/-- A carrier can be called exactly when its kind is `Func`. -/
def Value.callable (v : Value) : Bool :=
  decide (v.Kind = Kind.Func)

/-- A Go `map[string]V` that has been allocated, as an association list; the
first binding of a key is the one that is read. -/
abbrev GoMap (V : Type) := List (String × V)

/-- Map read `m[key]` in comma-ok form: `none` is the miss (`ok = false`). -/
def GoMap.index {V : Type} : GoMap V → String → Option V
  | [], _ => none
  | (k, v) :: m, key => if key = k then some v else GoMap.index m key

/-- Map write `m[key] = v`: any earlier binding of `key` is dropped, every
other binding is kept. -/
def GoMap.assign {V : Type} (m : GoMap V) (key : String) (v : V) : GoMap V :=
  (key, v) :: m.filter (fun e => decide (e.1 ≠ key))

/-- The keys bound in a map. -/
def GoMap.keys {V : Type} (m : GoMap V) : List String :=
  m.map Prod.fst

/-- The table `Symbols` of package `stdlib`, of Go type
`map[string]map[string]reflect.Value`. The variable is declared in another file
of the package and is taken here as a parameter of `init`: an allocated map
from unit identifier to symbol map. -/
abbrev Registry := GoMap (GoMap Value)

/-! ## `init` -/

/-- The map literal assigned in `init` (lines 13-28), bindings in source
order. -/
def netSmtpSymbols : GoMap Value :=
  [ -- function, constant and variable definitions
    ("CRAMMD5Auth", Value.funcOf "smtp" "CRAMMD5Auth"),
    ("Dial", Value.funcOf "smtp" "Dial"),
    ("NewClient", Value.funcOf "smtp" "NewClient"),
    ("PlainAuth", Value.funcOf "smtp" "PlainAuth"),
    ("SendMail", Value.funcOf "smtp" "SendMail"),
    -- type definitions
    ("Auth", Value.nilPtrTo "smtp" "Auth"),
    ("Client", Value.nilPtrTo "smtp" "Client"),
    ("ServerInfo", Value.nilPtrTo "smtp" "ServerInfo"),
    -- interface wrapper definitions
    ("_Auth", Value.nilPtrTo "stdlib" "_net_smtp_Auth") ]

/-- The registration routine: `Symbols["net/smtp"] = map[string]reflect.Value{...}`.
It takes the table before the statement and gives the table after it. -/
def init (Symbols : Registry) : Registry :=
  GoMap.assign Symbols "net/smtp" netSmtpSymbols

/-- Modelled from the spec: the lookup operation
`Lookup(unitID, symbolName) -> (ValueCarrier, found bool)` is not part of this
file; it is the two-level comma-ok read `Symbols[unitID][symbolName]`, which
gives the zero `reflect.Value` and `false` on a miss at either level. -/
def Lookup (Symbols : Registry) (unitID symbolName : String) : Value × Bool :=
  match GoMap.index Symbols unitID with
  | none => (Value.zero, false)
  | some syms =>
    match GoMap.index syms symbolName with
    | none => (Value.zero, false)
    | some v => (v, true)

/-- The nine symbol names of the `net/smtp` unit. -/
def netSmtpNames : List String :=
  ["CRAMMD5Auth", "Dial", "NewClient", "PlainAuth", "SendMail",
   "Auth", "Client", "ServerInfo", "_Auth"]

/-! ## The interface wrapper `_net_smtp_Auth` -/

/-- A Go `[]byte`: the nil slice or a sequence of bytes. -/
abbrev ByteSlice := Option (List (Fin 256))

/-- A Go `error` value: nil or an error with its message. -/
abbrev GoError := Option String

/-- The struct `smtp.ServerInfo` of the Go standard library. -/
structure ServerInfo where
  Name : String
  TLS : Bool
  Auth : Option (List String)
  deriving DecidableEq, Repr

/-- Run-time panics raised by the Go runtime or by a callee. -/
inductive Panic
  | nilDereference
  | raised (msg : String)
  deriving DecidableEq, Repr

/-- How a Go call ends: a normal return with its results, or a panic. -/
inductive Outcome (β : Type)
  | ret (v : β)
  | panic (p : Panic)
  deriving DecidableEq, Repr

/-- A Go function value over program state `σ`: `none` is the nil function
value, `some g` a closure that maps arguments and the state before the call to
an outcome and the state after it. -/
abbrev GoFunc (σ α β : Type) := Option (α → σ → Outcome β × σ)

/-- A Go call expression `f(a)`: calling the nil function value panics with a
nil dereference and leaves the state as it was. -/
def GoFunc.call {σ α β : Type} (f : GoFunc σ α β) (a : α) (s : σ) : Outcome β × σ :=
  match f with
  | none => (Outcome.panic Panic.nilDereference, s)
  | some g => g a s

/-- The struct `_net_smtp_Auth` (lines 32-35): one function-valued field per
method. -/
structure _net_smtp_Auth (σ : Type) where
  WNext : GoFunc σ (ByteSlice × Bool) (ByteSlice × GoError)
  WStart : GoFunc σ (Option ServerInfo) (String × ByteSlice × GoError)

/-- The method `Next` (lines 37-39): `return W.WNext(fromServer, more)`. -/
def _net_smtp_Auth.Next {σ : Type} (W : _net_smtp_Auth σ) (fromServer : ByteSlice)
    (more : Bool) (s : σ) : Outcome (ByteSlice × GoError) × σ :=
  GoFunc.call W.WNext (fromServer, more) s

/-- The method `Start` (lines 40-42): `return W.WStart(server)`. -/
def _net_smtp_Auth.Start {σ : Type} (W : _net_smtp_Auth σ) (server : Option ServerInfo)
    (s : σ) : Outcome (String × ByteSlice × GoError) × σ :=
  GoFunc.call W.WStart server s

/-- The interface `smtp.Auth` of the Go standard library (imported at line 8), as
the record of its two methods. -/
structure Auth (σ : Type) where
  Start : Option ServerInfo → σ → Outcome (String × ByteSlice × GoError) × σ
  Next : ByteSlice → Bool → σ → Outcome (ByteSlice × GoError) × σ

/-- Use of a wrapper value where an `smtp.Auth` is expected: the interface value
whose methods are the methods of the wrapper. -/
def _net_smtp_Auth.toAuth {σ : Type} (W : _net_smtp_Auth σ) : Auth σ :=
  { Start := W.Start, Next := W.Next }

/-- A closure instrumented with a call counter carried next to the state: each
call runs the closure once on the state and adds one to the counter. -/
def counted {σ α β : Type} (f : α → σ → Outcome β × σ) :
    α → σ × Nat → Outcome β × (σ × Nat) :=
  fun a s => ((f a s.1).1, ((f a s.1).2, s.2 + 1))

/-! ## Type descriptors of the wrapper and of `smtp.Auth` -/

/-- Go types that occur in the signatures of this unit. -/
inductive GoType
  | bool
  | string
  | error
  | byte
  | slice (elem : GoType)
  | ptr (elem : GoType)
  | named (pkg name : String)
  deriving DecidableEq, Repr

/-- A function signature: parameter types and result types, in order. -/
structure Signature where
  params : List GoType
  results : List GoType
  deriving DecidableEq, Repr

/-- A field of function type in a struct declaration. -/
structure Slot where
  name : String
  sig : Signature
  deriving DecidableEq, Repr

/-- A method declaration: its name, its signature and, for a method of the
wrapper, the field its body calls. -/
structure Method where
  name : String
  sig : Signature
  calls : String
  deriving DecidableEq, Repr

/-- The fields of `_net_smtp_Auth` as declared at lines 33-34. -/
def wrapperSlots : List Slot :=
  [ { name := "WNext",
      sig := { params := [GoType.slice GoType.byte, GoType.bool],
               results := [GoType.slice GoType.byte, GoType.error] } },
    { name := "WStart",
      sig := { params := [GoType.ptr (GoType.named "smtp" "ServerInfo")],
               results := [GoType.string, GoType.slice GoType.byte, GoType.error] } } ]

/-- The methods declared on `_net_smtp_Auth` at lines 37-42. -/
def wrapperMethods : List Method :=
  [ { name := "Next",
      sig := { params := [GoType.slice GoType.byte, GoType.bool],
               results := [GoType.slice GoType.byte, GoType.error] },
      calls := "WNext" },
    { name := "Start",
      sig := { params := [GoType.ptr (GoType.named "smtp" "ServerInfo")],
               results := [GoType.string, GoType.slice GoType.byte, GoType.error] },
      calls := "WStart" } ]

/-- The method set of the interface `smtp.Auth`, as declared in package
`net/smtp` of the Go standard library. -/
def authInterface : List (String × Signature) :=
  [ ("Start",
      { params := [GoType.ptr (GoType.named "smtp" "ServerInfo")],
        results := [GoType.string, GoType.slice GoType.byte, GoType.error] }),
    ("Next",
      { params := [GoType.slice GoType.byte, GoType.bool],
        results := [GoType.slice GoType.byte, GoType.error] }) ]

/-- Go interface satisfaction: every method of the interface is declared on the
type with the same name and signature. -/
def implements (methods : List Method) (iface : List (String × Signature)) : Bool :=
  iface.all (fun m => methods.any (fun d => decide (d.name = m.1 ∧ d.sig = m.2)))

/-- The slot that backs an interface method: the field that the wrapper method
of that name calls. -/
def backingSlot (name : String) : Option Slot :=
  match wrapperMethods.find? (fun d => decide (d.name = name)) with
  | none => none
  | some d => wrapperSlots.find? (fun f => decide (f.name = d.calls))

/-- A carrier describes an interface wrapper when it is a typed nil pointer to a
type of package `stdlib`, the package in which the wrapper structs are
declared. -/
def Value.describesWrapper : Value → Bool
  | .nilPtrTo pkg _ => decide (pkg = "stdlib")
  | _ => false

/-- The registry key of the wrapper entry of an interface (lines 13 and 27): the
unit identifier of its package together with the symbol `_` followed by the
interface name. -/
def wrapperKey (unitID iface : String) : String × String :=
  (unitID, "_" ++ iface)

/-! ## Concrete values -/

/-- The bytes of `[]byte("x")`. -/
def bytesX : ByteSlice :=
  some [120]

/-- A sample `Next` closure over a log of the calls it received: it records its
arguments, answers with the challenge followed by `!`, and reports an error
when more data is expected. -/
def sampleNext : ByteSlice × Bool → List (ByteSlice × Bool) →
    Outcome (ByteSlice × GoError) × List (ByteSlice × Bool) :=
  fun a log =>
    (Outcome.ret (some ((a.1.getD []) ++ [33]), if a.2 then some "unexpected server challenge" else none),
      log ++ [a])

/-- A sample `Start` closure over the same kind of log: it leaves the log alone
and answers with the mechanism `PLAIN`, or fails when no server is given. -/
def sampleStart : Option ServerInfo → List (ByteSlice × Bool) →
    Outcome (String × ByteSlice × GoError) × List (ByteSlice × Bool) :=
  fun server log =>
    match server with
    | none => (Outcome.ret ("", none, some "no server"), log)
    | some info => (Outcome.ret ("PLAIN", some [], if info.TLS then none else some "unencrypted connection"), log)

/-- A wrapper with both slots populated. -/
def populatedWrapper : _net_smtp_Auth (List (ByteSlice × Bool)) :=
  { WNext := some sampleNext, WStart := some sampleStart }

/-- A wrapper with neither slot populated: the zero value of the struct. -/
def emptyWrapper : _net_smtp_Auth Unit :=
  { WNext := none, WStart := none }

/-- A registry in which `"net/smtp"` is already present with two entries, next
to a unit `"net/http"`. -/
def staleRegistry : Registry :=
  [ ("net/http", [("Get", Value.funcOf "http" "Get")]),
    ("net/smtp", [("Dial", Value.funcOf "legacy" "Dial"),
                  ("Hello", Value.funcOf "legacy" "Hello")]) ]

/-! ## Facts about map reads and writes -/

theorem GoMap.index_assign_same {V : Type} (m : GoMap V) (key : String) (v : V) :
    GoMap.index (GoMap.assign m key v) key = some v := by
  simp [GoMap.assign, GoMap.index]

theorem GoMap.index_filter_ne {V : Type} (m : GoMap V) (key k : String) (h : k ≠ key) :
    GoMap.index (m.filter (fun e => decide (e.1 ≠ key))) k = GoMap.index m k := by
  induction m with
  | nil => rfl
  | cons e m ih =>
    obtain ⟨a, b⟩ := e
    by_cases ha : a = key
    · have hka : k ≠ a := ha ▸ h
      rw [List.filter_cons_of_neg (by simpa using ha)]
      rw [ih]
      simp [GoMap.index, hka]
    · rw [List.filter_cons_of_pos (by simpa using ha)]
      simp only [GoMap.index, ih]

theorem GoMap.index_assign_ne {V : Type} (m : GoMap V) (key k : String) (v : V)
    (h : k ≠ key) : GoMap.index (GoMap.assign m key v) k = GoMap.index m k := by
  unfold GoMap.assign
  rw [GoMap.index, if_neg h]
  exact GoMap.index_filter_ne m key k h

theorem GoMap.mem_keys_assign {V : Type} (m : GoMap V) (key k : String) (v : V) :
    k ∈ GoMap.keys (GoMap.assign m key v) ↔ k = key ∨ k ∈ GoMap.keys m := by
  simp only [GoMap.keys, GoMap.assign, List.map_cons, List.mem_cons, List.mem_map,
    List.mem_filter, decide_eq_true_eq]
  constructor
  · rintro (h | ⟨e, ⟨he, _⟩, rfl⟩)
    · exact Or.inl h
    · exact Or.inr ⟨e, he, rfl⟩
  · rintro (h | ⟨e, he, rfl⟩)
    · exact Or.inl h
    · by_cases hk : e.1 = key
      · exact Or.inl hk
      · exact Or.inr ⟨e, ⟨he, hk⟩, rfl⟩

theorem GoMap.assign_assign {V : Type} (m : GoMap V) (key : String) (v w : V) :
    GoMap.assign (GoMap.assign m key v) key w = GoMap.assign m key w := by
  simp [GoMap.assign, List.filter_filter]

theorem index_init_netSmtp (R : Registry) :
    GoMap.index (init R) "net/smtp" = some netSmtpSymbols :=
  GoMap.index_assign_same R "net/smtp" netSmtpSymbols

theorem Lookup_init_netSmtp (R : Registry) (S : String) :
    Lookup (init R) "net/smtp" S =
      match GoMap.index netSmtpSymbols S with
      | none => (Value.zero, false)
      | some v => (v, true) := by
  simp [Lookup, index_init_netSmtp]

theorem index_netSmtpSymbols_none (S : String) (h : S ∉ netSmtpNames) :
    GoMap.index netSmtpSymbols S = none := by
  simp only [netSmtpNames, List.mem_cons, List.mem_singleton, not_or, List.not_mem_nil,
    or_false] at h
  obtain ⟨h1, h2, h3, h4, h5, h6, h7, h8, h9⟩ := h
  simp [netSmtpSymbols, GoMap.index, h1, h2, h3, h4, h5, h6, h7, h8, h9]

theorem index_netSmtpSymbols_some (S : String) (h : S ∈ netSmtpNames) :
    (GoMap.index netSmtpSymbols S).isSome = true := by
  simp only [netSmtpNames, List.mem_cons, List.mem_singleton, List.not_mem_nil,
    or_false] at h
  rcases h with h | h | h | h | h | h | h | h | h <;> subst h <;> decide

/-! ## Dispatch through the wrapper -/

/-- C1: for a wrapper whose slot `WNext` holds the closure `f`, the method `Next`
applied to any byte slice and flag, in any state, gives exactly the outcome
(results with the error value, or panic) and the state that `f` gives on the same
arguments; when `f` carries a call counter, the counter goes up by exactly one. -/
theorem Next_forwards_to_WNext {σ : Type} (W : _net_smtp_Auth σ)
    (f : ByteSlice × Bool → σ → Outcome (ByteSlice × GoError) × σ)
    (h : W.WNext = some f) (fromServer : ByteSlice) (more : Bool) (s : σ) :
    W.Next fromServer more s = f (fromServer, more) s ∧
    ∀ (V : _net_smtp_Auth (σ × Nat)) (n : Nat), V.WNext = some (counted f) →
      V.Next fromServer more (s, n) =
        ((f (fromServer, more) s).1, ((f (fromServer, more) s).2, n + 1)) := by
  constructor
  · simp [_net_smtp_Auth.Next, GoFunc.call, h]
  · intro V n hV
    simp [_net_smtp_Auth.Next, GoFunc.call, hV, counted]

/-- The scenario `Next([]byte("x"), true)` on a populated wrapper: the result is
the one of the supplied closure, which has logged exactly one call. -/
theorem Next_forwards_to_WNext_witness :
    populatedWrapper.WNext = some sampleNext ∧
    populatedWrapper.Next bytesX true [] =
      (Outcome.ret (some [120, 33], some "unexpected server challenge"), [(bytesX, true)]) :=
  ⟨rfl, (Next_forwards_to_WNext populatedWrapper sampleNext rfl bytesX true []).1.trans rfl⟩

/-- C2: for a wrapper whose slot `WStart` holds the closure `g`, the method
`Start` applied to any server argument (nil included), in any state, gives
exactly the outcome and the state that `g` gives; the result does not depend on
what the slot `WNext` holds. -/
theorem Start_forwards_to_WStart {σ : Type} (W : _net_smtp_Auth σ)
    (g : Option ServerInfo → σ → Outcome (String × ByteSlice × GoError) × σ)
    (h : W.WStart = some g) (server : Option ServerInfo) (s : σ) :
    W.Start server s = g server s ∧
    ∀ nxt : GoFunc σ (ByteSlice × Bool) (ByteSlice × GoError),
      ({ WNext := nxt, WStart := W.WStart } : _net_smtp_Auth σ).Start server s = g server s := by
  constructor
  · simp [_net_smtp_Auth.Start, GoFunc.call, h]
  · intro nxt
    simp [_net_smtp_Auth.Start, GoFunc.call, h]

/-- The populated wrapper started with a nil server and with a TLS server. -/
theorem Start_forwards_to_WStart_witness :
    populatedWrapper.WStart = some sampleStart ∧
    populatedWrapper.Start none [] = (Outcome.ret ("", none, some "no server"), []) ∧
    ({ WNext := none, WStart := populatedWrapper.WStart } :
        _net_smtp_Auth (List (ByteSlice × Bool))).Start none [] =
      (Outcome.ret ("", none, some "no server"), []) :=
  ⟨rfl, (Start_forwards_to_WStart populatedWrapper sampleStart rfl none []).1.trans rfl,
    ((Start_forwards_to_WStart populatedWrapper sampleStart rfl none []).2 none).trans rfl⟩

/-- C3 fails as stated: on the wrapper with no slot populated, `Next` ends in a
nil-dereference panic and is not a normal return carrying an error value. -/
theorem unpopulated_slot_counterexample :
    emptyWrapper.WNext = none ∧
    (emptyWrapper.Next bytesX true ()).1 = Outcome.panic Panic.nilDereference ∧
    ¬ ∃ (toServer : ByteSlice) (err : String),
        (emptyWrapper.Next bytesX true ()).1 = Outcome.ret (toServer, some err) := by
  refine ⟨rfl, rfl, ?_⟩
  rintro ⟨toServer, err, h⟩
  have h2 : (Outcome.panic Panic.nilDereference : Outcome (ByteSlice × GoError)) =
      Outcome.ret (toServer, some err) := h
  cases h2

/-- C3 as amended: calling `Next` on a wrapper whose slot `WNext` is nil, or
`Start` on a wrapper whose slot `WStart` is nil, ends in the nil-dereference
panic of the Go runtime for every argument, with the state left as it was. -/
theorem unpopulated_slot_panics {σ : Type} (W : _net_smtp_Auth σ) :
    (W.WNext = none → ∀ (fromServer : ByteSlice) (more : Bool) (s : σ),
      W.Next fromServer more s = (Outcome.panic Panic.nilDereference, s)) ∧
    (W.WStart = none → ∀ (server : Option ServerInfo) (s : σ),
      W.Start server s = (Outcome.panic Panic.nilDereference, s)) := by
  constructor
  · intro h fromServer more s
    simp [_net_smtp_Auth.Next, GoFunc.call, h]
  · intro h server s
    simp [_net_smtp_Auth.Start, GoFunc.call, h]

/-- Both methods of the empty wrapper panic. -/
theorem unpopulated_slot_panics_witness :
    emptyWrapper.WNext = none ∧ emptyWrapper.WStart = none ∧
    emptyWrapper.Next bytesX true () = (Outcome.panic Panic.nilDereference, ()) ∧
    emptyWrapper.Start none () = (Outcome.panic Panic.nilDereference, ()) :=
  ⟨rfl, rfl, (unpopulated_slot_panics emptyWrapper).1 rfl bytesX true (),
    (unpopulated_slot_panics emptyWrapper).2 rfl none ()⟩

/-! ## Registration -/

/-- C4 fails as stated: on a registry that already holds `"net/smtp"`, `init`
gives back a registry in which the earlier entry `Hello` is no longer found and
the earlier entry `Dial` carries another value. -/
theorem duplicate_registration_counterexample :
    (GoMap.index staleRegistry "net/smtp").isSome = true ∧
    Lookup staleRegistry "net/smtp" "Hello" = (Value.funcOf "legacy" "Hello", true) ∧
    Lookup (init staleRegistry) "net/smtp" "Hello" = (Value.zero, false) ∧
    Lookup staleRegistry "net/smtp" "Dial" = (Value.funcOf "legacy" "Dial", true) ∧
    Lookup (init staleRegistry) "net/smtp" "Dial" = (Value.funcOf "smtp" "Dial", true) := by
  decide

/-- C4 as amended: on every registry that already holds `"net/smtp"`, `init`
completes and replaces the whole earlier unit by the nine-entry unit of its map
literal, so that every lookup under `"net/smtp"` gives what it gives after `init`
on the empty registry; an earlier entry under a name outside the nine names is
no longer found. -/
theorem duplicate_registration_replaces (R : Registry) (old : GoMap Value)
    (h : GoMap.index R "net/smtp" = some old) :
    GoMap.index (init R) "net/smtp" = some netSmtpSymbols ∧
    (∀ S : String, Lookup (init R) "net/smtp" S = Lookup (init []) "net/smtp" S) ∧
    ∀ S : String, S ∉ netSmtpNames →
      Lookup R "net/smtp" S = (match GoMap.index old S with
        | none => (Value.zero, false)
        | some v => (v, true)) ∧
      Lookup (init R) "net/smtp" S = (Value.zero, false) := by
  refine ⟨index_init_netSmtp R, ?_, ?_⟩
  · intro S
    rw [Lookup_init_netSmtp, Lookup_init_netSmtp]
  · intro S hS
    constructor
    · simp only [Lookup, h]
    · rw [Lookup_init_netSmtp, index_netSmtpSymbols_none S hS]

/-- The stale registry after `init`: the unit is the one of the map literal. -/
theorem duplicate_registration_replaces_witness :
    GoMap.index staleRegistry "net/smtp" =
      some [("Dial", Value.funcOf "legacy" "Dial"), ("Hello", Value.funcOf "legacy" "Hello")] ∧
    GoMap.index (init staleRegistry) "net/smtp" = some netSmtpSymbols ∧
    Lookup (init staleRegistry) "net/smtp" "Dial" = Lookup (init []) "net/smtp" "Dial" ∧
    Lookup (init staleRegistry) "net/smtp" "Hello" = (Value.zero, false) :=
  have t := duplicate_registration_replaces staleRegistry
    [("Dial", Value.funcOf "legacy" "Dial"), ("Hello", Value.funcOf "legacy" "Hello")]
    (by decide)
  ⟨by decide, t.1, t.2.1 "Dial", (t.2.2 "Hello" (by decide)).2⟩

/-- C5: after `init` on any registry, each of the nine names is found under
`"net/smtp"` with the carrier of the map literal: the five functions with kind
`Func`, the four types as typed nil pointers of kind `Ptr`; the carrier of
`Dial` is callable. -/
theorem registered_symbols_keep_kind (R : Registry) :
    Lookup (init R) "net/smtp" "CRAMMD5Auth" = (Value.funcOf "smtp" "CRAMMD5Auth", true) ∧
    Lookup (init R) "net/smtp" "Dial" = (Value.funcOf "smtp" "Dial", true) ∧
    Lookup (init R) "net/smtp" "NewClient" = (Value.funcOf "smtp" "NewClient", true) ∧
    Lookup (init R) "net/smtp" "PlainAuth" = (Value.funcOf "smtp" "PlainAuth", true) ∧
    Lookup (init R) "net/smtp" "SendMail" = (Value.funcOf "smtp" "SendMail", true) ∧
    Lookup (init R) "net/smtp" "Auth" = (Value.nilPtrTo "smtp" "Auth", true) ∧
    Lookup (init R) "net/smtp" "Client" = (Value.nilPtrTo "smtp" "Client", true) ∧
    Lookup (init R) "net/smtp" "ServerInfo" = (Value.nilPtrTo "smtp" "ServerInfo", true) ∧
    Lookup (init R) "net/smtp" "_Auth" = (Value.nilPtrTo "stdlib" "_net_smtp_Auth", true) ∧
    netSmtpNames.map (fun S => (Lookup (init R) "net/smtp" S).1.Kind) =
      [Kind.Func, Kind.Func, Kind.Func, Kind.Func, Kind.Func,
       Kind.Ptr, Kind.Ptr, Kind.Ptr, Kind.Ptr] ∧
    (Lookup (init R) "net/smtp" "Dial").1.callable = true := by
  simp only [Lookup_init_netSmtp]
  decide

/-- C6: after `init`, a symbol name outside the nine names is not found under
`"net/smtp"`, and no symbol is found under a unit identifier that the registry
does not hold; a lookup under `"net/smtp"` is a hit exactly for the nine names,
which are the keys of the registered unit. -/
theorem unregistered_lookup_not_found (R : Registry) (U S : String) :
    (S ∉ netSmtpNames → Lookup (init R) "net/smtp" S = (Value.zero, false)) ∧
    (GoMap.index (init R) U = none → Lookup (init R) U S = (Value.zero, false)) ∧
    (∀ T : String, (Lookup (init R) "net/smtp" T).2 = true ↔ T ∈ netSmtpNames) ∧
    (GoMap.index (init R) "net/smtp").map GoMap.keys = some netSmtpNames := by
  refine ⟨?_, ?_, ?_, ?_⟩
  · intro h
    rw [Lookup_init_netSmtp, index_netSmtpSymbols_none S h]
  · intro h
    simp [Lookup, h]
  · intro T
    rw [Lookup_init_netSmtp]
    by_cases hT : T ∈ netSmtpNames
    · have hs := index_netSmtpSymbols_some T hT
      cases hv : GoMap.index netSmtpSymbols T with
      | none => rw [hv] at hs; cases hs
      | some v => simp [hT]
    · rw [index_netSmtpSymbols_none T hT]
      simp [hT]
  · rw [index_init_netSmtp]
    rfl

/-- Lookups of `Quit` after `init` on the stale registry, under `"net/smtp"` and
under the absent unit `"net/url"`. -/
theorem unregistered_lookup_not_found_witness :
    "Quit" ∉ netSmtpNames ∧ GoMap.index (init staleRegistry) "net/url" = none ∧
    Lookup (init staleRegistry) "net/smtp" "Quit" = (Value.zero, false) ∧
    Lookup (init staleRegistry) "net/url" "Quit" = (Value.zero, false) :=
  have t := unregistered_lookup_not_found staleRegistry "net/url" "Quit"
  ⟨by decide, by decide, t.1 (by decide), t.2.1 (by decide)⟩

/-- C7: `init` enters the wrapper of the interface `Auth` under the key derived
from the unit identifier `"net/smtp"` and the interface name, that is under the
symbol `_Auth` of that unit, carrying a typed nil pointer to the wrapper struct
`_net_smtp_Auth`; no such entry exists for `Client` or `ServerInfo`, and `_Auth`
is the only entry of the unit that carries a wrapper type. -/
theorem wrapper_entry_only_for_Auth (R : Registry) :
    wrapperKey "net/smtp" "Auth" = ("net/smtp", "_Auth") ∧
    Lookup (init R) (wrapperKey "net/smtp" "Auth").1 (wrapperKey "net/smtp" "Auth").2 =
      (Value.nilPtrTo "stdlib" "_net_smtp_Auth", true) ∧
    Lookup (init R) (wrapperKey "net/smtp" "Client").1 (wrapperKey "net/smtp" "Client").2 =
      (Value.zero, false) ∧
    Lookup (init R) (wrapperKey "net/smtp" "ServerInfo").1
        (wrapperKey "net/smtp" "ServerInfo").2 = (Value.zero, false) ∧
    (GoMap.index (init R) "net/smtp").map
        (fun syms => (syms.filter (fun e => e.2.describesWrapper)).map Prod.fst) =
      some [(wrapperKey "net/smtp" "Auth").2] := by
  simp only [wrapperKey, Lookup_init_netSmtp, index_init_netSmtp]
  decide

/-- C8: `init` leaves every unit other than `"net/smtp"` as it was: the same
symbol map when present, still absent otherwise, hence the same lookups; the
keys of the registry afterwards are `"net/smtp"` and the keys it had. -/
theorem other_units_untouched (R : Registry) (U : String) (h : U ≠ "net/smtp") :
    GoMap.index (init R) U = GoMap.index R U ∧
    (∀ S : String, Lookup (init R) U S = Lookup R U S) ∧
    (U ∈ GoMap.keys (init R) ↔ U ∈ GoMap.keys R) ∧
    ∀ K : String, K ∈ GoMap.keys (init R) ↔ K = "net/smtp" ∨ K ∈ GoMap.keys R := by
  have hi : GoMap.index (init R) U = GoMap.index R U :=
    GoMap.index_assign_ne R "net/smtp" U netSmtpSymbols h
  refine ⟨hi, ?_, ?_, ?_⟩
  · intro S
    simp only [Lookup, hi]
  · rw [init, GoMap.mem_keys_assign]
    simp [h]
  · intro K
    rw [init, GoMap.mem_keys_assign]

/-- The unit `"net/http"` of the stale registry is the same after `init`. -/
theorem other_units_untouched_witness :
    "net/http" ≠ "net/smtp" ∧
    GoMap.index (init staleRegistry) "net/http" = some [("Get", Value.funcOf "http" "Get")] ∧
    Lookup (init staleRegistry) "net/http" "Get" = (Value.funcOf "http" "Get", true) :=
  have t := other_units_untouched staleRegistry "net/http" (by decide)
  ⟨by decide, t.1.trans (by decide), (t.2.1 "Get").trans (by decide)⟩

/-- C10: running `init` twice gives the same registry as running it once: the
same unit identifiers, the same lookups, and under `"net/smtp"` the same nine
names with the same kinds. -/
theorem init_idempotent (R : Registry) :
    init (init R) = init R ∧
    GoMap.keys (init (init R)) = GoMap.keys (init R) ∧
    (∀ U S : String, Lookup (init (init R)) U S = Lookup (init R) U S) ∧
    (GoMap.index (init (init R)) "net/smtp").map GoMap.keys = some netSmtpNames ∧
    netSmtpNames.map (fun S => (Lookup (init (init R)) "net/smtp" S).1.Kind) =
      netSmtpNames.map (fun S => (Lookup (init R) "net/smtp" S).1.Kind) := by
  have e : init (init R) = init R := GoMap.assign_assign R "net/smtp" netSmtpSymbols netSmtpSymbols
  refine ⟨e, by rw [e], ?_, ?_, by rw [e]⟩
  · intro U S
    rw [e]
  · rw [index_init_netSmtp]
    rfl

/-! ## Shape of the wrapper type -/

/-- C9: the wrapper struct has the two slots `WNext` and `WStart` and no other;
every method of `smtp.Auth` is declared on the wrapper and is backed by its own
slot, whose signature is that of the method; the wrapper implements the
interface, and the methods of a populated wrapper used as `smtp.Auth` are the
closures in its slots. -/
theorem wrapper_slots_match_Auth :
    wrapperSlots.map Slot.name = ["WNext", "WStart"] ∧
    authInterface.map (fun m => (backingSlot m.1).map Slot.name) =
      [some "WStart", some "WNext"] ∧
    authInterface.map (fun m => (backingSlot m.1).map Slot.sig) =
      authInterface.map (fun m => some m.2) ∧
    wrapperMethods.map (fun d => (d.calls, d.sig)) =
      wrapperSlots.map (fun f => (f.name, f.sig)) ∧
    implements wrapperMethods authInterface = true ∧
    wrapperMethods.length = authInterface.length ∧
    ∀ (σ : Type) (f : ByteSlice × Bool → σ → Outcome (ByteSlice × GoError) × σ)
      (g : Option ServerInfo → σ → Outcome (String × ByteSlice × GoError) × σ),
      ({ WNext := some f, WStart := some g } : _net_smtp_Auth σ).toAuth.Next =
        (fun fromServer more => f (fromServer, more)) ∧
      ({ WNext := some f, WStart := some g } : _net_smtp_Auth σ).toAuth.Start = g := by
  refine ⟨by decide, by decide, by decide, by decide, by decide, by decide, ?_⟩
  intro σ f g
  exact ⟨rfl, rfl⟩

end stdlib
